import Mathlib

/-!
Shallow embedding of the TinyVG binary parser (src/parser.rs of tinyvg-rs)
together with the in-memory data model it produces (src/format.rs).

Conventions of the embedding:
* The byte source is a `List Nat`; each read consumes a prefix and reduces a
  byte modulo 256 (wire bytes are `u8`).  `bytes_read` is only used in the
  Rust code to annotate error messages, so it is not modelled.
* Fallible Rust functions returning `eyre::Result` become
  `List Nat → Except Err (α × List Nat)`; the `?` operator becomes an
  explicit match on the `Except`.
* The parser's mutable fields (`coordinate_range`, `color_count`,
  `color_encoding`, `scale`) become an explicit `ParserState` record threaded
  through the readers; only `header` writes it.
* `f64` fractional values: `read_unit` divides a `u32` (at most 32 significant
  bits) by a power of two `2^scale` with `scale < 16`; every such quotient is
  exactly representable in `f64`, so the embedding uses `ℚ` exactly.
* `f32` colors (the RgbaF32 encoding) are kept as their raw little-endian
  IEEE-754 bit patterns: no claim inspects their numeric value, and the
  bits-to-value map is injective on the values the parser can produce.
* Rust `u32` arithmetic: the varint accumulator is truncated with `% 2^32`;
  a left shift whose shift amount reaches 32 is an arithmetic-overflow
  program error in Rust (a panic under debug assertions), modelled by the
  distinguished error `Err.shiftOverflow`.
-/

namespace TinyVG

/-- Decidable equality for Except values, so concrete parser runs can be
compared by `decide`. -/
def exceptDecEq {ε α : Type} [DecidableEq ε] [DecidableEq α] :
    (a b : Except ε α) → Decidable (a = b)
  | .error x, .error y =>
    if h : x = y then .isTrue (by rw [h]) else .isFalse (by intro hc; cases hc; exact h rfl)
  | .error _, .ok _ => .isFalse (by intro hc; cases hc)
  | .ok _, .error _ => .isFalse (by intro hc; cases hc)
  | .ok x, .ok y =>
    if h : x = y then .isTrue (by rw [h]) else .isFalse (by intro hc; cases hc; exact h rfl)

instance {ε α : Type} [DecidableEq ε] [DecidableEq α] : DecidableEq (Except ε α) :=
  exceptDecEq

/-- Error kinds produced by the parser.  The Rust code uses dynamic
`eyre` string errors; this enumeration has one constructor per distinct
`bail!` / io failure site so results can be compared precisely. -/
inductive Err
  | eof
  | badMagic (b0 b1 : Nat)
  | unrecognizedCoordinateRange (x : Nat)
  | customColorEncoding
  | unrecognizedColorEncoding (x : Nat)
  | unsupportedStyle (x : Nat)
  | unsupportedCommand (x : Nat)
  | illegalSegmentInstruction (x : Nat)
  | shiftOverflow
  deriving DecidableEq, Repr

/-- Width of coordinate values (format.rs, enum CoordinateRange). -/
inductive CoordinateRange
  | Default
  | Reduced
  | Enhanced
  deriving DecidableEq, Repr

/-- Color encodings (format.rs, enum ColorEncoding). -/
inductive ColorEncoding
  | Rgba8888
  | Rgb565
  | RgbaF32
  deriving DecidableEq, Repr

/-- Arc sweep direction (used by parser.rs for arc segment commands). -/
inductive Sweep
  | Left
  | Right
  deriving DecidableEq, Repr

/-- Colors as built by the three decoding paths of parser.rs.
`rgba8` keeps the four raw bytes (piet `Color::rgba8`); `rgba` keeps the
four raw little-endian `f32` bit patterns (see the header comment); `rgb`
keeps the exact rational channels computed by `color_565`. -/
inductive Color
  | rgba8 (r g b a : Nat)
  | rgba (rBits gBits bBits aBits : Nat)
  | rgb (r g b : ℚ)
  deriving DecidableEq, Repr

/-- A 2-d point (kurbo Point), exact rationals for the f64 fields. -/
structure Point where
  x : ℚ
  y : ℚ
  deriving DecidableEq, Repr

/-- A rectangle (kurbo Rect: two corner points x0,y0,x1,y1). -/
structure Rect where
  x0 : ℚ
  y0 : ℚ
  x1 : ℚ
  y1 : ℚ
  deriving DecidableEq, Repr

/-- kurbo Rect::from_origin_size. -/
def Rect.from_origin_size (origin : Point) (width height : ℚ) : Rect :=
  { x0 := origin.x, y0 := origin.y, x1 := origin.x + width, y1 := origin.y + height }

/-- A line between two points (kurbo Line). -/
structure Line where
  p0 : Point
  p1 : Point
  deriving DecidableEq, Repr

/-- Styles (format.rs, enum Style).  color indices are `usize` in Rust. -/
inductive Style
  | FlatColor (color_index : Nat)
  | LinearGradient (point_0 point_1 : Point) (color_index_0 color_index_1 : Nat)
  | RadialGradient (point_0 point_1 : Point) (color_index_0 color_index_1 : Nat)
  deriving DecidableEq, Repr

/-- Outline style carried by the outline-fill commands (format.rs). -/
structure OutlineStyle where
  line_width : ℚ
  line_style : Style
  deriving DecidableEq, Repr

/-- Segment command kinds (format.rs / parser.rs).  The source field named
`end` of the Line variant is spelled `endp` because `end` is a Lean keyword. -/
inductive SegmentCommandKind
  | Line (endp : Point)
  | HorizontalLine (x : ℚ)
  | VerticalLine (y : ℚ)
  | CubicBezier (control_0 control_1 point_1 : Point)
  | ArcCircle (large : Bool) (sweep : Sweep) (radius : ℚ) (target : Point)
  | ArcEllipse (large : Bool) (sweep : Sweep) (radius_x radius_y rotation : ℚ) (target : Point)
  | ClosePath
  | QuadraticBezier (control point_1 : Point)
  deriving DecidableEq, Repr

/-- A segment command with its optional per-command line width override. -/
structure SegmentCommand where
  kind : SegmentCommandKind
  line_width : Option ℚ
  deriving DecidableEq, Repr

/-- A path segment: start point plus command list (format.rs). -/
structure Segment where
  start : Point
  commands : List SegmentCommand
  deriving DecidableEq, Repr

/-- Drawing commands (format.rs, enum Command). -/
inductive Command
  | FillPolygon (fill_style : Style) (polygon : List Point) (outline : Option OutlineStyle)
  | FillRectangles (fill_style : Style) (rectangles : List Rect) (outline : Option OutlineStyle)
  | FillPath (fill_style : Style) (path : List Segment) (outline : Option OutlineStyle)
  | DrawLines (line_style : Style) (line_width : ℚ) (lines : List Line)
  | DrawLineLoop (line_style : Style) (line_width : ℚ) (close_path : Bool) (points : List Point)
  | DrawLinePath (line_style : Style) (line_width : ℚ) (path : List Segment)
  deriving DecidableEq, Repr

/-- The image header (format.rs, struct Header). -/
structure Header where
  version : Nat
  scale : Nat
  color_encoding : ColorEncoding
  coordinate_range : CoordinateRange
  width : Nat
  height : Nat
  color_count : Nat
  deriving DecidableEq, Repr

/-- The parsed file (root IR value; named `File` in parser.rs, `Image` in
format.rs of a sibling revision - same shape). -/
structure File where
  header : Header
  color_table : List Color
  commands : List Command
  trailer : List Nat
  deriving DecidableEq, Repr

/-- The parser's mutable context fields (struct Parser, minus the reader). -/
structure ParserState where
  coordinate_range : CoordinateRange
  color_count : Nat
  color_encoding : ColorEncoding
  scale : Nat
  deriving DecidableEq, Repr

/-- Parser::new defaults for the context fields. -/
def ParserState.new : ParserState :=
  { coordinate_range := .Default, color_count := 0, color_encoding := .Rgb565, scale := 0 }

/-- Style variant tags (parser.rs, enum StyleVariant). -/
inductive StyleVariant
  | FlatColor
  | LinearGradient
  | RadialGradient
  deriving DecidableEq, Repr

/-- TryFrom u8 for StyleVariant. -/
def StyleVariant.tryFrom (value : Nat) : Except Err StyleVariant :=
  match value with
  | 0 => .ok .FlatColor
  | 1 => .ok .LinearGradient
  | 2 => .ok .RadialGradient
  | x => .error (.unsupportedStyle x)

/-- Segment command variants (parser.rs, enum SegmentCommandVariant). -/
inductive SegmentCommandVariant
  | Line
  | HorizontalLine
  | VerticalLine
  | CubicBezier
  | ArcCircle
  | ArcEllipse
  | ClosePath
  | QuadraticBezier
  deriving DecidableEq, Repr

/-- A decoded segment-command tag byte (parser.rs, struct SegmentCommandTag). -/
structure SegmentCommandTag where
  instruction : SegmentCommandVariant
  line_width : Option ℚ
  deriving DecidableEq, Repr

/-- Decoded scale-and-flags byte (parser.rs, struct ScaleProperties). -/
structure ScaleProperties where
  scale : Nat
  color_encoding : ColorEncoding
  coordinate_range : CoordinateRange
  deriving DecidableEq, Repr

/-- byteorder read_u8: consume one byte. -/
def read_u8 : List Nat → Except Err (Nat × List Nat)
  | [] => .error .eof
  | b :: rest => .ok (b % 256, rest)

/-- byteorder read_u16 little-endian: consume two bytes. -/
def read_u16_le : List Nat → Except Err (Nat × List Nat)
  | b0 :: b1 :: rest => .ok (b0 % 256 + 256 * (b1 % 256), rest)
  | _ => .error .eof

/-- byteorder read_u32 little-endian: consume four bytes. -/
def read_u32_le : List Nat → Except Err (Nat × List Nat)
  | b0 :: b1 :: b2 :: b3 :: rest =>
    .ok (b0 % 256 + 256 * (b1 % 256) + 65536 * (b2 % 256) + 16777216 * (b3 % 256), rest)
  | _ => .error .eof

/-- packed_struct field extraction under msb0 bit numbering: the field
occupying msb0 bit positions [lo, hi) of a byte (bit 0 is the most
significant bit of the byte). -/
def extractMsb0 (lo hi b : Nat) : Nat :=
  (b >>> (8 - hi)) &&& (2 ^ (hi - lo) - 1)

/-- Parser::magic_number. -/
def magic_number (s : List Nat) : Except Err (Unit × List Nat) :=
  match read_u8 s with
  | .error e => .error e
  | .ok (b0, s1) =>
    match read_u8 s1 with
    | .error e => .error e
    | .ok (b1, s2) =>
      if b0 = 0x72 ∧ b1 = 0x56 then .ok ((), s2) else .error (.badMagic b0 b1)

/-- Parser::version. -/
def version (s : List Nat) : Except Err (Nat × List Nat) :=
  read_u8 s

/-- Parser::scale_properties: unpack the scale-and-flags byte using the
msb0 packed_struct layout (scale at msb0 bits 4..8, color_encoding at
2..4, coordinate_range at 0..2), then map the two enum fields. -/
def scale_properties (s : List Nat) : Except Err (ScaleProperties × List Nat) :=
  match read_u8 s with
  | .error e => .error e
  | .ok (x, rest) =>
    match (match extractMsb0 0 2 x with
           | 0 => Except.ok CoordinateRange.Default
           | 1 => Except.ok CoordinateRange.Reduced
           | 2 => Except.ok CoordinateRange.Enhanced
           | y => Except.error (Err.unrecognizedCoordinateRange y)) with
    | .error e => .error e
    | .ok cr =>
      match (match extractMsb0 2 4 x with
             | 0 => Except.ok ColorEncoding.Rgba8888
             | 1 => Except.ok ColorEncoding.Rgb565
             | 2 => Except.ok ColorEncoding.RgbaF32
             | 3 => Except.error Err.customColorEncoding
             | y => Except.error (Err.unrecognizedColorEncoding y)) with
      | .error e => .error e
      | .ok ce =>
        .ok ({ scale := extractMsb0 4 8 x, color_encoding := ce, coordinate_range := cr }, rest)

/-- Parser::read_with_coordinate_range. -/
def read_with_coordinate_range (p : ParserState) (s : List Nat) : Except Err (Nat × List Nat) :=
  match p.coordinate_range with
  | .Reduced => read_u8 s
  | .Default => read_u16_le s
  | .Enhanced => read_u32_le s

/-- Loop body of Parser::read_var_uint.  Each iteration reads one byte and
ors its low 7 bits into the `u32` accumulator at shift `7 * count`; the
accumulator is truncated to 32 bits.  When `7 * count` reaches 32 the Rust
shift overflows (`Err.shiftOverflow`, a panic under debug assertions). -/
def read_var_uint_aux (result count : Nat) : List Nat → Except Err (Nat × List Nat)
  | [] => .error .eof
  | b :: rest =>
    let b := b % 256
    if 32 ≤ 7 * count then .error .shiftOverflow
    else
      let result := (result ||| ((b &&& 0x7F) <<< (7 * count))) % 4294967296
      if b &&& 0x80 = 0 then .ok (result, rest)
      else read_var_uint_aux result (count + 1) rest

/-- Parser::read_var_uint. -/
def read_var_uint (s : List Nat) : Except Err (Nat × List Nat) :=
  read_var_uint_aux 0 0 s

/-- Parser::color_8888: four bytes, kept raw (piet Color::rgba8). -/
def color_8888 (s : List Nat) : Except Err (Color × List Nat) :=
  match read_u8 s with
  | .error e => .error e
  | .ok (red, s1) =>
    match read_u8 s1 with
    | .error e => .error e
    | .ok (green, s2) =>
      match read_u8 s2 with
      | .error e => .error e
      | .ok (blue, s3) =>
        match read_u8 s3 with
        | .error e => .error e
        | .ok (alpha, s4) => .ok (.rgba8 red green blue alpha, s4)

/-- Parser::color_f32: four little-endian f32 reads, kept as raw bits. -/
def color_f32 (s : List Nat) : Except Err (Color × List Nat) :=
  match read_u32_le s with
  | .error e => .error e
  | .ok (red, s1) =>
    match read_u32_le s1 with
    | .error e => .error e
    | .ok (green, s2) =>
      match read_u32_le s2 with
      | .error e => .error e
      | .ok (blue, s3) =>
        match read_u32_le s3 with
        | .error e => .error e
        | .ok (alpha, s4) => .ok (.rgba red green blue alpha, s4)

/-- Parser::color_565: one u16, channels as exact rationals. -/
def color_565 (s : List Nat) : Except Err (Color × List Nat) :=
  match read_u16_le s with
  | .error e => .error e
  | .ok (rgb, rest) =>
    let red : ℚ := ((rgb &&& 0x001F) >>> 0 : Nat) / 31
    let green : ℚ := ((rgb &&& 0x07E0) >>> 5 : Nat) / 63
    let blue : ℚ := ((rgb &&& 0xF800) >>> 11 : Nat) / 31
    .ok (.rgb red green blue, rest)

/-- Color-table loop body of Parser::parse_color_table (n colors). -/
def parse_color_table_aux (p : ParserState) : Nat → List Nat → Except Err (List Color × List Nat)
  | 0, s => .ok ([], s)
  | n + 1, s =>
    match (match p.color_encoding with
           | .Rgba8888 => color_8888 s
           | .RgbaF32 => color_f32 s
           | .Rgb565 => color_565 s) with
    | .error e => .error e
    | .ok (c, s1) =>
      match parse_color_table_aux p n s1 with
      | .error e => .error e
      | .ok (cs, s2) => .ok (c :: cs, s2)

/-- Parser::parse_color_table. -/
def parse_color_table (p : ParserState) (s : List Nat) : Except Err (List Color × List Nat) :=
  parse_color_table_aux p p.color_count s

/-- Parser::read_unit: a coordinate-range-sized UNSIGNED integer divided by
2^scale (the Rust code computes `(raw as f64) / ((1u32 << scale) as f64)`
with `raw : u32`; exact in ℚ, see the header comment). -/
def read_unit (p : ParserState) (s : List Nat) : Except Err (ℚ × List Nat) :=
  match read_with_coordinate_range p s with
  | .error e => .error e
  | .ok (raw, rest) => .ok ((raw : ℚ) / ((2 ^ p.scale : Nat) : ℚ), rest)

/-- Parser::point. -/
def point (p : ParserState) (s : List Nat) : Except Err (Point × List Nat) :=
  match read_unit p s with
  | .error e => .error e
  | .ok (x, s1) =>
    match read_unit p s1 with
    | .error e => .error e
    | .ok (y, s2) => .ok ({ x := x, y := y }, s2)

/-- Parser::rectangle. -/
def rectangle (p : ParserState) (s : List Nat) : Except Err (Rect × List Nat) :=
  match read_unit p s with
  | .error e => .error e
  | .ok (x, s1) =>
    match read_unit p s1 with
    | .error e => .error e
    | .ok (y, s2) =>
      match read_unit p s2 with
      | .error e => .error e
      | .ok (width, s3) =>
        match read_unit p s3 with
        | .error e => .error e
        | .ok (height, s4) =>
          .ok (Rect.from_origin_size { x := x, y := y } width height, s4)

/-- Parser::line. -/
def line (p : ParserState) (s : List Nat) : Except Err (Line × List Nat) :=
  match point p s with
  | .error e => .error e
  | .ok (p0, s1) =>
    match point p s1 with
    | .error e => .error e
    | .ok (p1, s2) => .ok ({ p0 := p0, p1 := p1 }, s2)

/-- Parser::style: decode one style under the given variant tag.  Note the
raw varint is stored as the color index with no comparison against
`color_count` (the `try_into` in the source is the infallible u32→usize
conversion). -/
def style (p : ParserState) (variant : StyleVariant) (s : List Nat) :
    Except Err (Style × List Nat) :=
  match variant with
  | .FlatColor =>
    match read_var_uint s with
    | .error e => .error e
    | .ok (color_index, s1) => .ok (.FlatColor color_index, s1)
  | .LinearGradient =>
    match point p s with
    | .error e => .error e
    | .ok (point_0, s1) =>
      match point p s1 with
      | .error e => .error e
      | .ok (point_1, s2) =>
        match read_var_uint s2 with
        | .error e => .error e
        | .ok (color_index_0, s3) =>
          match read_var_uint s3 with
          | .error e => .error e
          | .ok (color_index_1, s4) =>
            .ok (.LinearGradient point_0 point_1 color_index_0 color_index_1, s4)
  | .RadialGradient =>
    match point p s with
    | .error e => .error e
    | .ok (point_0, s1) =>
      match point p s1 with
      | .error e => .error e
      | .ok (point_1, s2) =>
        match read_var_uint s2 with
        | .error e => .error e
        | .ok (color_index_0, s3) =>
          match read_var_uint s3 with
          | .error e => .error e
          | .ok (color_index_1, s4) =>
            .ok (.RadialGradient point_0 point_1 color_index_0 color_index_1, s4)

/-- Parser::segment_command_line. -/
def segment_command_line (p : ParserState) (s : List Nat) :
    Except Err (SegmentCommandKind × List Nat) :=
  match point p s with
  | .error e => .error e
  | .ok (endp, s1) => .ok (.Line endp, s1)

/-- Parser::segment_command_horizontal_line. -/
def segment_command_horizontal_line (p : ParserState) (s : List Nat) :
    Except Err (SegmentCommandKind × List Nat) :=
  match read_unit p s with
  | .error e => .error e
  | .ok (x, s1) => .ok (.HorizontalLine x, s1)

/-- Parser::segment_command_vertical_line. -/
def segment_command_vertical_line (p : ParserState) (s : List Nat) :
    Except Err (SegmentCommandKind × List Nat) :=
  match read_unit p s with
  | .error e => .error e
  | .ok (y, s1) => .ok (.VerticalLine y, s1)

/-- Parser::segment_command_cubic_bezier. -/
def segment_command_cubic_bezier (p : ParserState) (s : List Nat) :
    Except Err (SegmentCommandKind × List Nat) :=
  match point p s with
  | .error e => .error e
  | .ok (control_0, s1) =>
    match point p s1 with
    | .error e => .error e
    | .ok (control_1, s2) =>
      match point p s2 with
      | .error e => .error e
      | .ok (point_1, s3) => .ok (.CubicBezier control_0 control_1 point_1, s3)

/-- Parser::arc_header: one byte; bit 7 is the large flag, bit 6 the sweep. -/
def arc_header (s : List Nat) : Except Err ((Bool × Sweep) × List Nat) :=
  match read_u8 s with
  | .error e => .error e
  | .ok (raw, rest) =>
    let is_large : Bool := 0 < raw &&& 0b10000000
    let sweep : Sweep := if 0 < raw &&& 0b01000000 then .Left else .Right
    .ok ((is_large, sweep), rest)

/-- Parser::segment_command_arc_circle. -/
def segment_command_arc_circle (p : ParserState) (s : List Nat) :
    Except Err (SegmentCommandKind × List Nat) :=
  match arc_header s with
  | .error e => .error e
  | .ok ((large, sweep), s1) =>
    match read_unit p s1 with
    | .error e => .error e
    | .ok (radius, s2) =>
      match point p s2 with
      | .error e => .error e
      | .ok (target, s3) => .ok (.ArcCircle large sweep radius target, s3)

/-- Parser::segment_command_arc_ellipse. -/
def segment_command_arc_ellipse (p : ParserState) (s : List Nat) :
    Except Err (SegmentCommandKind × List Nat) :=
  match arc_header s with
  | .error e => .error e
  | .ok ((large, sweep), s1) =>
    match read_unit p s1 with
    | .error e => .error e
    | .ok (radius_x, s2) =>
      match read_unit p s2 with
      | .error e => .error e
      | .ok (radius_y, s3) =>
        match read_unit p s3 with
        | .error e => .error e
        | .ok (rotation, s4) =>
          match point p s4 with
          | .error e => .error e
          | .ok (target, s5) => .ok (.ArcEllipse large sweep radius_x radius_y rotation target, s5)

/-- Parser::segment_command_quadratic_bezier. -/
def segment_command_quadratic_bezier (p : ParserState) (s : List Nat) :
    Except Err (SegmentCommandKind × List Nat) :=
  match point p s with
  | .error e => .error e
  | .ok (control, s1) =>
    match point p s1 with
    | .error e => .error e
    | .ok (point_1, s2) => .ok (.QuadraticBezier control point_1, s2)

/-- Parser::segment_command_tag: read the tag byte, extract the low-3-bit
instruction number, read the optional line width (bit 3), then map the
instruction number to its variant; the final wildcard arm mirrors the
source's `bail!("illegal path segment instruction")`. -/
def segment_command_tag (p : ParserState) (s : List Nat) :
    Except Err (SegmentCommandTag × List Nat) :=
  match read_u8 s with
  | .error e => .error e
  | .ok (raw, s1) =>
    let instruction := raw &&& 0b00000111
    let has_line_width := 0 < raw &&& 0b0001000
    match (if has_line_width then
             match read_unit p s1 with
             | .error e => .error e
             | .ok (w, s2) => .ok (some w, s2)
           else .ok (none, s1) : Except Err (Option ℚ × List Nat)) with
    | .error e => .error e
    | .ok (line_width, s2) =>
      match (match instruction with
             | 0 => Except.ok SegmentCommandVariant.Line
             | 1 => Except.ok SegmentCommandVariant.HorizontalLine
             | 2 => Except.ok SegmentCommandVariant.VerticalLine
             | 3 => Except.ok SegmentCommandVariant.CubicBezier
             | 4 => Except.ok SegmentCommandVariant.ArcCircle
             | 5 => Except.ok SegmentCommandVariant.ArcEllipse
             | 6 => Except.ok SegmentCommandVariant.ClosePath
             | 7 => Except.ok SegmentCommandVariant.QuadraticBezier
             | x => Except.error (Err.illegalSegmentInstruction x)) with
      | .error e => .error e
      | .ok instr => .ok ({ instruction := instr, line_width := line_width }, s2)

/-- Dispatch on a decoded tag: the body match of Parser::segment's loop. -/
def segment_command_body (p : ParserState) (v : SegmentCommandVariant) (s : List Nat) :
    Except Err (SegmentCommandKind × List Nat) :=
  match v with
  | .Line => segment_command_line p s
  | .HorizontalLine => segment_command_horizontal_line p s
  | .VerticalLine => segment_command_vertical_line p s
  | .CubicBezier => segment_command_cubic_bezier p s
  | .ArcCircle => segment_command_arc_circle p s
  | .ArcEllipse => segment_command_arc_ellipse p s
  | .ClosePath => .ok (.ClosePath, s)
  | .QuadraticBezier => segment_command_quadratic_bezier p s

/-- The command-collecting loop of Parser::segment (`for _ in 0..segment_size`). -/
def segment_loop (p : ParserState) : Nat → List Nat → Except Err (List SegmentCommand × List Nat)
  | 0, s => .ok ([], s)
  | n + 1, s =>
    match segment_command_tag p s with
    | .error e => .error e
    | .ok (tag, s1) =>
      match segment_command_body p tag.instruction s1 with
      | .error e => .error e
      | .ok (kind, s2) =>
        match segment_loop p n s2 with
        | .error e => .error e
        | .ok (cmds, s3) => .ok ({ kind := kind, line_width := tag.line_width } :: cmds, s3)

/-- Parser::segment. -/
def segment (p : ParserState) (segment_size : Nat) (s : List Nat) :
    Except Err (Segment × List Nat) :=
  match point p s with
  | .error e => .error e
  | .ok (start, s1) =>
    match segment_loop p segment_size s1 with
    | .error e => .error e
    | .ok (commands, s2) => .ok ({ start := start, commands := commands }, s2)

/-- Generic item loop (`for _ in 0..count { items.push(f(self)?) }`), shared
by count_and_style_command, draw_lines/loop/strip and outline_fill_cmd. -/
def read_items (f : ParserState → List Nat → Except Err (α × List Nat)) (p : ParserState) :
    Nat → List Nat → Except Err (List α × List Nat)
  | 0, s => .ok ([], s)
  | n + 1, s =>
    match f p s with
    | .error e => .error e
    | .ok (a, s1) =>
      match read_items f p n s1 with
      | .error e => .error e
      | .ok (as_, s2) => .ok (a :: as_, s2)

/-- Parser::count_and_style_command: count = varint + 1, then the style,
then exactly count items.  No cap of any kind is applied to the count. -/
def count_and_style_command (p : ParserState) (variant : StyleVariant)
    (f : ParserState → List Nat → Except Err (α × List Nat)) (s : List Nat) :
    Except Err ((Style × List α) × List Nat) :=
  match read_var_uint s with
  | .error e => .error e
  | .ok (v, s1) =>
    let count := v + 1
    match style p variant s1 with
    | .error e => .error e
    | .ok (st, s2) =>
      match read_items f p count s2 with
      | .error e => .error e
      | .ok (items, s3) => .ok ((st, items), s3)

/-- First loop of Parser::read_path: read `count` varints, adding 1 to each. -/
def read_segment_lengths : Nat → List Nat → Except Err (List Nat × List Nat)
  | 0, s => .ok ([], s)
  | n + 1, s =>
    match read_var_uint s with
    | .error e => .error e
    | .ok (v, s1) =>
      match read_segment_lengths n s1 with
      | .error e => .error e
      | .ok (ls, s2) => .ok ((v + 1) :: ls, s2)

/-- Second loop of Parser::read_path: one segment per declared length, in
order (the source indexes `segment_lengths[i]` for `i in 0..count`; since
that vector has exactly `count` entries this is the in-order traversal). -/
def read_segments (p : ParserState) : List Nat → List Nat → Except Err (List Segment × List Nat)
  | [], s => .ok ([], s)
  | n :: ns, s =>
    match segment p n s with
    | .error e => .error e
    | .ok (sg, s1) =>
      match read_segments p ns s1 with
      | .error e => .error e
      | .ok (sgs, s2) => .ok (sg :: sgs, s2)

/-- Parser::read_path. -/
def read_path (p : ParserState) (count : Nat) (s : List Nat) :
    Except Err (List Segment × List Nat) :=
  match read_segment_lengths count s with
  | .error e => .error e
  | .ok (segment_lengths, s1) => read_segments p segment_lengths s1

/-- Parser::fill_polygon. -/
def fill_polygon (p : ParserState) (style_variant : StyleVariant) (s : List Nat) :
    Except Err (Command × List Nat) :=
  match count_and_style_command p style_variant point s with
  | .error e => .error e
  | .ok ((fill_style, polygon), s1) => .ok (.FillPolygon fill_style polygon none, s1)

/-- Parser::fill_rectangles. -/
def fill_rectangles (p : ParserState) (style_variant : StyleVariant) (s : List Nat) :
    Except Err (Command × List Nat) :=
  match count_and_style_command p style_variant rectangle s with
  | .error e => .error e
  | .ok ((fill_style, rectangles), s1) => .ok (.FillRectangles fill_style rectangles none, s1)

/-- Parser::fill_path. -/
def fill_path (p : ParserState) (style_variant : StyleVariant) (s : List Nat) :
    Except Err (Command × List Nat) :=
  match read_var_uint s with
  | .error e => .error e
  | .ok (v, s1) =>
    let count := v + 1
    match style p style_variant s1 with
    | .error e => .error e
    | .ok (fill_style, s2) =>
      match read_path p count s2 with
      | .error e => .error e
      | .ok (path, s3) => .ok (.FillPath fill_style path none, s3)

/-- Parser::u6_u2: split one byte into its low 6 bits and high 2 bits. -/
def u6_u2 (s : List Nat) : Except Err ((Nat × Nat) × List Nat) :=
  match read_u8 s with
  | .error e => .error e
  | .ok (byte, rest) => .ok ((byte &&& 0b00111111, (byte &&& 0b11000000) >>> 6), rest)

/-- Parser::draw_lines. -/
def draw_lines (p : ParserState) (style_variant : StyleVariant) (s : List Nat) :
    Except Err (Command × List Nat) :=
  match read_var_uint s with
  | .error e => .error e
  | .ok (v, s1) =>
    let count := v + 1
    match style p style_variant s1 with
    | .error e => .error e
    | .ok (line_style, s2) =>
      match read_unit p s2 with
      | .error e => .error e
      | .ok (line_width, s3) =>
        match read_items line p count s3 with
        | .error e => .error e
        | .ok (lines, s4) => .ok (.DrawLines line_style line_width lines, s4)

/-- Parser::draw_line_loop (close_path := true). -/
def draw_line_loop (p : ParserState) (style_variant : StyleVariant) (s : List Nat) :
    Except Err (Command × List Nat) :=
  match read_var_uint s with
  | .error e => .error e
  | .ok (v, s1) =>
    let count := v + 1
    match style p style_variant s1 with
    | .error e => .error e
    | .ok (line_style, s2) =>
      match read_unit p s2 with
      | .error e => .error e
      | .ok (line_width, s3) =>
        match read_items point p count s3 with
        | .error e => .error e
        | .ok (points, s4) => .ok (.DrawLineLoop line_style line_width true points, s4)

/-- Parser::draw_line_strip (close_path := false). -/
def draw_line_strip (p : ParserState) (style_variant : StyleVariant) (s : List Nat) :
    Except Err (Command × List Nat) :=
  match read_var_uint s with
  | .error e => .error e
  | .ok (v, s1) =>
    let count := v + 1
    match style p style_variant s1 with
    | .error e => .error e
    | .ok (line_style, s2) =>
      match read_unit p s2 with
      | .error e => .error e
      | .ok (line_width, s3) =>
        match read_items point p count s3 with
        | .error e => .error e
        | .ok (points, s4) => .ok (.DrawLineLoop line_style line_width false points, s4)

/-- Parser::draw_line_path. -/
def draw_line_path (p : ParserState) (style_variant : StyleVariant) (s : List Nat) :
    Except Err (Command × List Nat) :=
  match read_var_uint s with
  | .error e => .error e
  | .ok (v, s1) =>
    let count := v + 1
    match style p style_variant s1 with
    | .error e => .error e
    | .ok (line_style, s2) =>
      match read_unit p s2 with
      | .error e => .error e
      | .ok (line_width, s3) =>
        match read_path p count s3 with
        | .error e => .error e
        | .ok (path, s4) => .ok (.DrawLinePath line_style line_width path, s4)

/-- Result record of Parser::outline_fill_cmd (struct OutlineFill). -/
structure OutlineFill (T : Type) where
  fill_style : Style
  outline : OutlineStyle
  items : List T
  deriving DecidableEq, Repr

/-- Parser::outline_fill_cmd: u6/u2 byte giving segment_count and the
secondary style variant, the two styles, the line width, then
`segment_count + 1` items. -/
def outline_fill_cmd (p : ParserState) (primary_style : StyleVariant)
    (f : ParserState → List Nat → Except Err (α × List Nat)) (s : List Nat) :
    Except Err (OutlineFill α × List Nat) :=
  match u6_u2 s with
  | .error e => .error e
  | .ok ((segment_count, secondary_raw), s1) =>
    match StyleVariant.tryFrom secondary_raw with
    | .error e => .error e
    | .ok secondary_style =>
      match style p primary_style s1 with
      | .error e => .error e
      | .ok (fill_style, s2) =>
        match style p secondary_style s2 with
        | .error e => .error e
        | .ok (line_style, s3) =>
          match read_unit p s3 with
          | .error e => .error e
          | .ok (line_width, s4) =>
            match read_items f p (segment_count + 1) s4 with
            | .error e => .error e
            | .ok (items, s5) =>
              .ok ({ fill_style := fill_style,
                     outline := { line_style := line_style, line_width := line_width },
                     items := items }, s5)

/-- Parser::outline_fill_polygon. -/
def outline_fill_polygon (p : ParserState) (primary_style : StyleVariant) (s : List Nat) :
    Except Err (Command × List Nat) :=
  match outline_fill_cmd p primary_style point s with
  | .error e => .error e
  | .ok (ofl, s1) => .ok (.FillPolygon ofl.fill_style ofl.items (some ofl.outline), s1)

/-- Parser::outline_fill_rectangles. -/
def outline_fill_rectangles (p : ParserState) (primary_style : StyleVariant) (s : List Nat) :
    Except Err (Command × List Nat) :=
  match outline_fill_cmd p primary_style rectangle s with
  | .error e => .error e
  | .ok (ofl, s1) => .ok (.FillRectangles ofl.fill_style ofl.items (some ofl.outline), s1)

/-- Parser::outline_fill_path: like outline_fill_cmd, but the u6 value is
passed to read_path directly (no `+ 1`). -/
def outline_fill_path (p : ParserState) (primary_style : StyleVariant) (s : List Nat) :
    Except Err (Command × List Nat) :=
  match u6_u2 s with
  | .error e => .error e
  | .ok ((segment_count, secondary_raw), s1) =>
    match StyleVariant.tryFrom secondary_raw with
    | .error e => .error e
    | .ok secondary_style =>
      match style p primary_style s1 with
      | .error e => .error e
      | .ok (fill_style, s2) =>
        match style p secondary_style s2 with
        | .error e => .error e
        | .ok (line_style, s3) =>
          match read_unit p s3 with
          | .error e => .error e
          | .ok (line_width, s4) =>
            match read_path p segment_count s4 with
            | .error e => .error e
            | .ok (path, s5) =>
              .ok (.FillPath fill_style path
                     (some { line_style := line_style, line_width := line_width }), s5)

/-- Parser::command: one u6/u2 byte; the primary style variant is converted
BEFORE the sentinel test (as in the source); command_index 0 yields `none`
(end of stream), 1..10 dispatch, others fail. -/
def command (p : ParserState) (s : List Nat) : Except Err (Option Command × List Nat) :=
  match u6_u2 s with
  | .error e => .error e
  | .ok ((command_index, primary_raw), s1) =>
    match StyleVariant.tryFrom primary_raw with
    | .error e => .error e
    | .ok primary_style =>
      match command_index with
      | 0 => .ok (none, s1)
      | 1 => (fill_polygon p primary_style s1).map (fun r => (some r.1, r.2))
      | 2 => (fill_rectangles p primary_style s1).map (fun r => (some r.1, r.2))
      | 3 => (fill_path p primary_style s1).map (fun r => (some r.1, r.2))
      | 4 => (draw_lines p primary_style s1).map (fun r => (some r.1, r.2))
      | 5 => (draw_line_loop p primary_style s1).map (fun r => (some r.1, r.2))
      | 6 => (draw_line_strip p primary_style s1).map (fun r => (some r.1, r.2))
      | 7 => (draw_line_path p primary_style s1).map (fun r => (some r.1, r.2))
      | 8 => (outline_fill_polygon p primary_style s1).map (fun r => (some r.1, r.2))
      | 9 => (outline_fill_rectangles p primary_style s1).map (fun r => (some r.1, r.2))
      | 10 => (outline_fill_path p primary_style s1).map (fun r => (some r.1, r.2))
      | x => .error (.unsupportedCommand x)

/-- Parser::header: magic, version, scale-and-flags; the coordinate range is
installed in the state before width/height are read; finally color_count,
color_encoding and scale are installed. -/
def header (s : List Nat) : Except Err ((Header × ParserState) × List Nat) :=
  match magic_number s with
  | .error e => .error e
  | .ok ((), s1) =>
    match version s1 with
    | .error e => .error e
    | .ok (ver, s2) =>
      match scale_properties s2 with
      | .error e => .error e
      | .ok (sp, s3) =>
        let p1 := { ParserState.new with coordinate_range := sp.coordinate_range }
        match read_with_coordinate_range p1 s3 with
        | .error e => .error e
        | .ok (width, s4) =>
          match read_with_coordinate_range p1 s4 with
          | .error e => .error e
          | .ok (height, s5) =>
            match read_var_uint s5 with
            | .error e => .error e
            | .ok (color_count, s6) =>
              let p2 := { p1 with color_count := color_count,
                                  color_encoding := sp.color_encoding,
                                  scale := sp.scale }
              .ok (({ version := ver, scale := sp.scale,
                      color_encoding := sp.color_encoding,
                      coordinate_range := sp.coordinate_range,
                      width := width, height := height,
                      color_count := color_count }, p2), s6)

/-- Parser::parse_header: header then color table; commands and trailer of
the returned File start empty. -/
def parse_header (s : List Nat) : Except Err ((File × ParserState) × List Nat) :=
  match header s with
  | .error e => .error e
  | .ok ((hd, p), s1) =>
    match parse_color_table p s1 with
    | .error e => .error e
    | .ok (color_table, s2) =>
      .ok (({ header := hd, color_table := color_table, commands := [], trailer := [] }, p), s2)

/-- Command loop of Parser::parse_inner.  Each iteration of the Rust
`while let` consumes at least one byte (the command tag byte), so a fuel of
`s.length + 1` can never run out before the loop ends; the fuel-0 branch is
unreachable and returns `.error .eof` for totality. -/
def parse_inner_loop (p : ParserState) : Nat → List Nat → Except Err (List Command × List Nat)
  | 0, _ => .error .eof
  | fuel + 1, s =>
    match command p s with
    | .error e => .error e
    | .ok (none, s1) => .ok ([], s1)
    | .ok (some c, s1) =>
      match parse_inner_loop p fuel s1 with
      | .error e => .error e
      | .ok (cs, s2) => .ok (c :: cs, s2)

/-- Parser::parse_inner: the command loop, then read_to_end into the
trailer (which drains the remaining bytes). -/
def parse_inner (p : ParserState) (file : File) (s : List Nat) : Except Err File :=
  match parse_inner_loop p (s.length + 1) s with
  | .error e => .error e
  | .ok (cs, rest) =>
    .ok { file with commands := file.commands ++ cs, trailer := file.trailer ++ rest }

/-- Parser::parse_commands: parse_inner with error-context annotation only
(the annotation does not change which error occurs, so it is the identity
here). -/
def parse_commands (p : ParserState) (file : File) (s : List Nat) : Except Err File :=
  parse_inner p file s

/-- Parser::parse: parse_header, then parse_commands on the same stream. -/
def parse (s : List Nat) : Except Err File :=
  match parse_header s with
  | .error e => .error e
  | .ok ((file, p), s1) => parse_commands p file s1

/-! Spec-side definitions used only to STATE claims (not embeddings of code):
the color-index bounds invariant and the signed reinterpretation of a
coordinate-range-sized integer that the spec describes. -/

/-- All color indices mentioned by a style are < n. -/
def styleColorIndicesInBounds (n : Nat) : Style → Bool
  | .FlatColor i => decide (i < n)
  | .LinearGradient _ _ i j => decide (i < n) && decide (j < n)
  | .RadialGradient _ _ i j => decide (i < n) && decide (j < n)

/-- Every style occurring in a command (fill/line style and outline style). -/
def commandStyles : Command → List Style
  | .FillPolygon fs _ ol => fs :: (ol.map OutlineStyle.line_style).toList
  | .FillRectangles fs _ ol => fs :: (ol.map OutlineStyle.line_style).toList
  | .FillPath fs _ ol => fs :: (ol.map OutlineStyle.line_style).toList
  | .DrawLines ls _ _ => [ls]
  | .DrawLineLoop ls _ _ _ => [ls]
  | .DrawLinePath ls _ _ => [ls]

/-- The spec's color-index bounds invariant over a whole file. -/
def fileColorIndicesInBounds (f : File) : Bool :=
  f.commands.all fun c => (commandStyles c).all (styleColorIndicesInBounds f.header.color_count)

/-- Two's-complement reinterpretation of a width-bit unsigned value, as the
spec describes for coordinate decoding. -/
def signed_reinterp (width raw : Nat) : Int :=
  if raw < 2 ^ (width - 1) then (raw : Int) else (raw : Int) - 2 ^ width

/-! Helper lemmas about the loops and primitive readers. -/

/-- The varint accumulator is truncated to 32 bits at every step, so every
successfully decoded varint value is < 2^32. -/
theorem read_var_uint_aux_lt :
    ∀ (s : List Nat) (result count v : Nat) (s' : List Nat),
      read_var_uint_aux result count s = .ok (v, s') → v < 4294967296 := by
  intro s
  induction s with
  | nil => intro result count v s' h; cases h
  | cons b rest ih =>
    intro result count v s' h
    unfold read_var_uint_aux at h
    split at h
    · cases h
    · dsimp only at h
      split at h
      · cases h
        exact Nat.mod_lt _ (by norm_num)
      · exact ih _ _ _ _ h

/-- read_items returns exactly the requested number of items on success. -/
theorem read_items_length {α : Type}
    (f : ParserState → List Nat → Except Err (α × List Nat)) (p : ParserState) :
    ∀ (n : Nat) (s s' : List Nat) (items : List α),
      read_items f p n s = .ok (items, s') → items.length = n := by
  intro n
  induction n with
  | zero =>
    intro s s' items h
    unfold read_items at h
    cases h
    rfl
  | succ n ih =>
    intro s s' items h
    unfold read_items at h
    split at h
    · cases h
    · split at h
      · cases h
      · cases h
        simpa using ih _ _ _ (by assumption)

/-- segment_loop returns exactly the requested number of commands. -/
theorem segment_loop_length (p : ParserState) :
    ∀ (n : Nat) (s s' : List Nat) (cmds : List SegmentCommand),
      segment_loop p n s = .ok (cmds, s') → cmds.length = n := by
  intro n
  induction n with
  | zero =>
    intro s s' cmds h
    unfold segment_loop at h
    cases h
    rfl
  | succ n ih =>
    intro s s' cmds h
    unfold segment_loop at h
    split at h
    · cases h
    · split at h
      · cases h
      · split at h
        · cases h
        · cases h
          simpa using ih _ _ _ (by assumption)

/-- A parsed segment carries exactly the requested number of commands. -/
theorem segment_commands_length (p : ParserState) (n : Nat) (s s' : List Nat) (sg : Segment)
    (h : segment p n s = .ok (sg, s')) : sg.commands.length = n := by
  unfold segment at h
  split at h
  · cases h
  · split at h
    · cases h
    · cases h
      exact segment_loop_length p _ _ _ _ (by assumption)

/-- read_segment_lengths returns exactly the requested number of lengths. -/
theorem read_segment_lengths_length :
    ∀ (n : Nat) (s s' : List Nat) (ls : List Nat),
      read_segment_lengths n s = .ok (ls, s') → ls.length = n := by
  intro n
  induction n with
  | zero =>
    intro s s' ls h
    unfold read_segment_lengths at h
    cases h
    rfl
  | succ n ih =>
    intro s s' ls h
    unfold read_segment_lengths at h
    split at h
    · cases h
    · split at h
      · cases h
      · cases h
        simpa using ih _ _ _ (by assumption)

/-- read_segments produces one segment per declared length, each with
exactly its declared number of commands. -/
theorem read_segments_map (p : ParserState) :
    ∀ (lens : List Nat) (s s' : List Nat) (sgs : List Segment),
      read_segments p lens s = .ok (sgs, s') →
        sgs.map (fun sg => sg.commands.length) = lens := by
  intro lens
  induction lens with
  | nil =>
    intro s s' sgs h
    unfold read_segments at h
    cases h
    rfl
  | cons n ns ih =>
    intro s s' sgs h
    unfold read_segments at h
    split at h
    · cases h
    · split at h
      · cases h
      · cases h
        rename_i sg s1 hseg sgs2 s2 hrest
        simp only [List.map_cons]
        rw [segment_commands_length p _ _ _ _ hseg, ih _ _ _ hrest]

/-- On success, read_path returns exactly `count` segments. -/
theorem read_path_length (p : ParserState) (count : Nat) (s s' : List Nat) (sgs : List Segment)
    (h : read_path p count s = .ok (sgs, s')) : sgs.length = count := by
  unfold read_path at h
  split at h
  · cases h
  · rename_i lens s1 hl
    have hmap := read_segments_map p _ _ _ _ h
    have : sgs.length = lens.length := by rw [← hmap, List.length_map]
    rw [this, read_segment_lengths_length _ _ _ _ hl]

/-- read_u8 can only fail with eof. -/
theorem read_u8_error (s : List Nat) (e : Err) (h : read_u8 s = .error e) : e = .eof := by
  cases s with
  | nil => cases h; rfl
  | cons b rest => cases h

/-- read_u16_le can only fail with eof. -/
theorem read_u16_le_error (s : List Nat) (e : Err) (h : read_u16_le s = .error e) : e = .eof := by
  match s with
  | [] => cases h; rfl
  | [b] => cases h; rfl
  | b0 :: b1 :: rest => cases h

/-- read_u32_le can only fail with eof. -/
theorem read_u32_le_error (s : List Nat) (e : Err) (h : read_u32_le s = .error e) : e = .eof := by
  match s with
  | [] => cases h; rfl
  | [b] => cases h; rfl
  | [b0, b1] => cases h; rfl
  | [b0, b1, b2] => cases h; rfl
  | b0 :: b1 :: b2 :: b3 :: rest => cases h

/-- read_with_coordinate_range can only fail with eof. -/
theorem read_with_coordinate_range_error (p : ParserState) (s : List Nat) (e : Err)
    (h : read_with_coordinate_range p s = .error e) : e = .eof := by
  unfold read_with_coordinate_range at h
  split at h
  · exact read_u8_error _ _ h
  · exact read_u16_le_error _ _ h
  · exact read_u32_le_error _ _ h

/-- read_unit can only fail with eof. -/
theorem read_unit_error (p : ParserState) (s : List Nat) (e : Err)
    (h : read_unit p s = .error e) : e = .eof := by
  unfold read_unit at h
  split at h
  · cases h
    exact read_with_coordinate_range_error p s e (by assumption)
  · cases h

/-- The item list of outline_fill_cmd has length u6 + 1, where u6 is the low
six bits of the first byte. -/
theorem outline_fill_cmd_items_length {α : Type} (p : ParserState) (primary : StyleVariant)
    (f : ParserState → List Nat → Except Err (α × List Nat)) (s : List Nat)
    (u6 u2v : Nat) (s1 : List Nat) (ofl : OutlineFill α) (s' : List Nat)
    (h1 : u6_u2 s = .ok ((u6, u2v), s1))
    (h : outline_fill_cmd p primary f s = .ok (ofl, s')) :
    ofl.items.length = u6 + 1 := by
  unfold outline_fill_cmd at h
  rw [h1] at h
  dsimp only at h
  split at h
  · cases h
  · split at h
    · cases h
    · split at h
      · cases h
      · split at h
        · cases h
        · split at h
          · cases h
          · cases h
            exact read_items_length f p _ _ _ _ (by assumption)

/-! Claim theorems. -/

/-- C2 counterexample: the claim's nibble split is wrong for byte 0x10.
The decoder (packed_struct msb0 layout) yields scale = 0,
color_encoding = Rgb565, coordinate_range = Default, while the claim's
formula `scale = (b >> 4) & 0xF` would give scale = 1. -/
theorem claim_C2_counterexample :
    scale_properties [0x10] =
      .ok ({ scale := 0, color_encoding := .Rgb565, coordinate_range := .Default }, []) ∧
    (0x10 >>> 4) &&& 0xF = 1 ∧ (0 : Nat) ≠ 1 := by
  decide

/-- C2 (amended): the scale-and-flags byte decomposes with scale in the LOW
nibble, color_encoding in bits 4..5 and coordinate_range in the HIGH two
bits: scale = b & 0xF, color_encoding = (b >> 4) & 0x3,
coordinate_range = (b >> 6) & 0x3; accordingly the scale field decoded by
scale_properties is b & 0xF. -/
theorem claim_C2_theorem (b : Nat) (h : b < 256) :
    extractMsb0 4 8 b = b &&& 0xF ∧
    extractMsb0 2 4 b = (b >>> 4) &&& 0x3 ∧
    extractMsb0 0 2 b = (b >>> 6) &&& 0x3 ∧
    ∀ (rest : List Nat) (r : ScaleProperties) (s' : List Nat),
      scale_properties (b :: rest) = .ok (r, s') → r.scale = b &&& 0xF ∧ s' = rest := by
  have H : ∀ c < 256, extractMsb0 4 8 c = c &&& 0xF ∧ extractMsb0 2 4 c = (c >>> 4) &&& 0x3 ∧
      extractMsb0 0 2 c = (c >>> 6) &&& 0x3 := by
    set_option maxRecDepth 4096 in decide
  obtain ⟨h1, h2, h3⟩ := H b h
  refine ⟨h1, h2, h3, ?_⟩
  intro rest r s' hok
  unfold scale_properties at hok
  simp only [read_u8, Nat.mod_eq_of_lt h] at hok
  split at hok
  · cases hok
  · split at hok
    · cases hok
    · cases hok
      exact ⟨h1, rfl⟩

/-- C2 witness: the amended split evaluated at byte 0x23. -/
theorem claim_C2_witness :
    (0x23 : Nat) < 256 ∧ extractMsb0 4 8 0x23 = 0x23 &&& 0xF :=
  ⟨by decide, (claim_C2_theorem 0x23 (by decide)).1⟩

/-- C3 counterexample: the 8-byte input does NOT decode to the header the
claim states (scale=4, coordinate_range=Default). -/
theorem claim_C3_counterexample :
    parse [0x72, 0x56, 0x01, 0x40, 0x10, 0x10, 0x00, 0x00] ≠
      .ok { header := { version := 1, scale := 4, color_encoding := .Rgba8888,
                        coordinate_range := .Default, width := 16, height := 16,
                        color_count := 0 },
            color_table := [], commands := [], trailer := [] } := by
  decide

/-- C3 (amended): the 8-byte input parses successfully to
Header{version=1, scale=0, color_encoding=Rgba8888,
coordinate_range=Reduced, width=16, height=16, color_count=0}, an empty
color table, no commands and an empty trailer (flags byte 0x40 puts 1 in
the high-two-bit coordinate_range field and 0 in the low-nibble scale). -/
theorem claim_C3_theorem :
    parse [0x72, 0x56, 0x01, 0x40, 0x10, 0x10, 0x00, 0x00] =
      .ok { header := { version := 1, scale := 0, color_encoding := .Rgba8888,
                        coordinate_range := .Reduced, width := 16, height := 16,
                        color_count := 0 },
            color_table := [], commands := [], trailer := [] } := by
  decide

/-- C4 counterexample: with Reduced range and scale 0, wire byte 0xFF
decodes to 255, not to the -1 that the claim's signed (two's-complement)
reading prescribes. -/
theorem claim_C4_counterexample :
    read_unit { coordinate_range := .Reduced, color_count := 0,
                color_encoding := .Rgba8888, scale := 0 } [0xFF] = .ok ((255 : ℚ), []) ∧
    ((signed_reinterp 8 0xFF : ℚ) / 2 ^ (0 : Nat) = (-1 : ℚ)) ∧
    (255 : ℚ) ≠ (-1 : ℚ) := by
  refine ⟨by norm_num [read_unit, read_with_coordinate_range, read_u8],
          by norm_num [signed_reinterp], by norm_num⟩

/-- C4 (amended): read_unit interprets the coordinate-range-sized integer as
UNSIGNED: it returns raw / 2^scale for the unsigned raw value, and every
decoded unit is therefore nonnegative. -/
theorem claim_C4_theorem (p : ParserState) (s s' : List Nat) (q : ℚ)
    (h : read_unit p s = .ok (q, s')) :
    0 ≤ q ∧ ∃ raw : Nat, read_with_coordinate_range p s = .ok (raw, s') ∧
      q = (raw : ℚ) / ((2 ^ p.scale : Nat) : ℚ) := by
  unfold read_unit at h
  split at h
  · cases h
  · rename_i raw rest hr
    cases h
    exact ⟨by positivity, raw, hr, rfl⟩

/-- C4 witness: the amended statement at wire byte 0x10, Reduced range. -/
theorem claim_C4_witness :
    read_unit { coordinate_range := .Reduced, color_count := 0,
                color_encoding := .Rgba8888, scale := 0 } [0x10] = .ok ((16 : ℚ), []) ∧
    0 ≤ (16 : ℚ) :=
  ⟨by norm_num [read_unit, read_with_coordinate_range, read_u8],
   (claim_C4_theorem { coordinate_range := .Reduced, color_count := 0,
                       color_encoding := .Rgba8888, scale := 0 } [0x10] [] 16
      (by norm_num [read_unit, read_with_coordinate_range, read_u8])).1⟩

/-- C5 counterexample: the five-byte varint FF FF FF FF 7F encodes
2^35 - 1 = 34359738367, which does not fit in 32 bits; the reader returns
the silently truncated value 0xFFFFFFFF instead of any error. -/
theorem claim_C5_counterexample :
    read_var_uint [0xFF, 0xFF, 0xFF, 0xFF, 0x7F] = .ok (4294967295, []) ∧
    0x7F + 0x7F * 2 ^ 7 + 0x7F * 2 ^ 14 + 0x7F * 2 ^ 21 + 0x7F * 2 ^ 28 = 34359738367 ∧
    4294967296 ≤ 34359738367 := by
  decide

/-- C5 (amended): the varint reader has no VarintOverflow error: it ors
7-bit groups into a 32-bit accumulator, silently discarding bits at and
above bit 32, so every returned value is < 2^32; once a sixth byte is
reached (count = 5) the shift amount 35 overflows the u32 shift, which is
an arithmetic-overflow program error (panic under debug assertions), not a
clean decoding error. -/
theorem claim_C5_theorem :
    (∀ (s : List Nat) (v : Nat) (s' : List Nat),
        read_var_uint s = .ok (v, s') → v < 4294967296) ∧
    read_var_uint [0x80, 0x80, 0x80, 0x80, 0x80, 0x01] = .error .shiftOverflow := by
  constructor
  · intro s v s' h
    exact read_var_uint_aux_lt s 0 0 v s' h
  · decide

/-- C5 witness: the 32-bit bound evaluated on the varint encoding of 300. -/
theorem claim_C5_witness :
    read_var_uint [0xAC, 0x02] = .ok (300, []) ∧ 300 < 4294967296 :=
  ⟨by decide, claim_C5_theorem.1 [0xAC, 0x02] 300 [] (by decide)⟩

/-- C1 counterexample: a 13-byte file with color_count = 0 and a
FillPolygon command whose FlatColor style carries color_index 5 parses
successfully: the color-index bounds invariant is violated on a
successfully parsed image and no error (of any kind) is raised. -/
theorem claim_C1_counterexample :
    (parse [0x72, 0x56, 0x01, 0x40, 0x01, 0x01, 0x00, 0x01, 0x00, 0x05, 0x00, 0x00, 0x00]).map
        fileColorIndicesInBounds = .ok false ∧
    (parse [0x72, 0x56, 0x01, 0x40, 0x01, 0x01, 0x00, 0x01, 0x00, 0x05, 0x00, 0x00, 0x00]).map
        (fun f => f.commands.map commandStyles) = .ok [[Style.FlatColor 5]] ∧
    (parse [0x72, 0x56, 0x01, 0x40, 0x01, 0x01, 0x00, 0x01, 0x00, 0x05, 0x00, 0x00, 0x00]).map
        (fun f => f.header.color_count) = .ok 0 := by
  refine ⟨by decide, by decide, by decide⟩

/-- C1 (amended): the style reader performs no bounds check against
color_count: it stores the raw varint value as the color index, for any
parser state whatsoever (shown for FlatColor and LinearGradient). -/
theorem claim_C1_theorem :
    (∀ (p : ParserState) (s s' : List Nat) (v : Nat),
        read_var_uint s = .ok (v, s') →
        style p .FlatColor s = .ok (.FlatColor v, s')) ∧
    (∀ (p : ParserState) (s s1 s2 s3 s4 : List Nat) (pt0 pt1 : Point) (i0 i1 : Nat),
        point p s = .ok (pt0, s1) → point p s1 = .ok (pt1, s2) →
        read_var_uint s2 = .ok (i0, s3) → read_var_uint s3 = .ok (i1, s4) →
        style p .LinearGradient s = .ok (.LinearGradient pt0 pt1 i0 i1, s4)) := by
  constructor
  · intro p s s' v h
    simp only [style, h]
  · intro p s s1 s2 s3 s4 pt0 pt1 i0 i1 h0 h1 h2 h3
    simp only [style, h0, h1, h2, h3]

/-- C1 witness: a FlatColor style with color_index 5 decoded under a state
whose color_count is 0. -/
theorem claim_C1_witness :
    read_var_uint [0x05] = .ok (5, []) ∧
    style { coordinate_range := .Reduced, color_count := 0,
            color_encoding := .Rgba8888, scale := 0 } .FlatColor [0x05] =
      .ok (.FlatColor 5, []) :=
  ⟨by decide,
   claim_C1_theorem.1 { coordinate_range := .Reduced, color_count := 0,
                        color_encoding := .Rgba8888, scale := 0 } [0x05] [] 5 (by decide)⟩

/-- C6 counterexample: a FillPolygon whose count prefix declares 1024
points while only 2 bytes of input remain is NOT rejected up front with
any ResourceExhausted-style error: the parser starts reading points and
fails with EOF. -/
theorem claim_C6_counterexample :
    parse [0x72, 0x56, 0x01, 0x40, 0x01, 0x01, 0x00, 0x01, 0xFF, 0x07, 0x00, 0x00, 0x00] =
      .error .eof := by
  decide

/-- C6 (amended): count prefixes are used directly: whenever a
count-and-style command succeeds it has read exactly varint + 1 items, with
no cap derived from the remaining input length (and when the input cannot
supply that many items the parse fails with EOF while reading them, as the
counterexample shows). -/
theorem claim_C6_theorem {α : Type} (p : ParserState) (variant : StyleVariant)
    (f : ParserState → List Nat → Except Err (α × List Nat)) (s s1 : List Nat) (v : Nat)
    (hv : read_var_uint s = .ok (v, s1)) (st : Style) (items : List α) (s' : List Nat)
    (h : count_and_style_command p variant f s = .ok ((st, items), s')) :
    items.length = v + 1 := by
  unfold count_and_style_command at h
  rw [hv] at h
  dsimp only at h
  split at h
  · cases h
  · split at h
    · cases h
    · cases h
      exact read_items_length f p _ _ _ _ (by assumption)

/-- C6 witness: a byte-valued item reader with count varint 0 reads 0+1
items. -/
theorem claim_C6_witness :
    count_and_style_command { coordinate_range := .Reduced, color_count := 0,
                              color_encoding := .Rgba8888, scale := 0 }
        .FlatColor (fun _ => read_u8) [0x00, 0x00, 0xAB] = .ok ((.FlatColor 0, [0xAB]), []) ∧
    ([0xAB] : List Nat).length = 0 + 1 :=
  ⟨by decide,
   claim_C6_theorem { coordinate_range := .Reduced, color_count := 0,
                      color_encoding := .Rgba8888, scale := 0 }
     .FlatColor (fun _ => read_u8) [0x00, 0x00, 0xAB] [0x00, 0xAB] 0 (by decide)
     (.FlatColor 0) [0xAB] [] (by decide)⟩

/-- C7: for every successfully parsed path, the parser first reads the
count varints (each incremented by 1 to give the declared lengths), and
segment i carries exactly declared_length[i] segment-commands. -/
theorem claim_C7_theorem (p : ParserState) (n : Nat) (s s' : List Nat) (segs : List Segment)
    (h : read_path p n s = .ok (segs, s')) :
    ∃ (lens : List Nat) (s1 : List Nat),
      read_segment_lengths n s = .ok (lens, s1) ∧ lens.length = n ∧
      segs.map (fun sg => sg.commands.length) = lens := by
  unfold read_path at h
  split at h
  · cases h
  · rename_i lens s1 hl
    exact ⟨lens, s1, hl, read_segment_lengths_length _ _ _ _ hl,
           read_segments_map p _ _ _ _ h⟩

/-- C7 witness: a one-segment path whose length prefix 0x01 declares 2
commands; the parsed segment carries exactly 2 commands. -/
theorem claim_C7_witness :
    ∃ (lens : List Nat) (s1 : List Nat),
      read_segment_lengths 1 [0x01, 0x00, 0x00, 0x06, 0x06] = .ok (lens, s1) ∧
      lens.length = 1 ∧
      ([{ start := { x := ((0 : Nat) : ℚ) / ((2 ^ (0 : Nat) : Nat) : ℚ),
                     y := ((0 : Nat) : ℚ) / ((2 ^ (0 : Nat) : Nat) : ℚ) },
          commands := [{ kind := .ClosePath, line_width := none },
                       { kind := .ClosePath, line_width := none }] }] : List Segment).map
          (fun sg => sg.commands.length) = lens :=
  claim_C7_theorem { coordinate_range := .Reduced, color_count := 0,
                     color_encoding := .Rgba8888, scale := 0 }
    1 [0x01, 0x00, 0x00, 0x06, 0x06] []
    [{ start := { x := ((0 : Nat) : ℚ) / ((2 ^ (0 : Nat) : Nat) : ℚ),
                  y := ((0 : Nat) : ℚ) / ((2 ^ (0 : Nat) : Nat) : ℚ) },
       commands := [{ kind := .ClosePath, line_width := none },
                    { kind := .ClosePath, line_width := none }] }]
    (by rfl)

/-- C9: parse is exactly parse_header followed by parse_commands on the
same stream: as a function equation, and at the level of successful
results. -/
theorem claim_C9_theorem :
    (∀ s : List Nat,
        parse s = match parse_header s with
          | .error e => .error e
          | .ok ((file, p), s1) => parse_commands p file s1) ∧
    (∀ (s : List Nat) (f : File),
        parse s = .ok f ↔
          ∃ (f0 : File) (p : ParserState) (s1 : List Nat),
            parse_header s = .ok ((f0, p), s1) ∧ parse_commands p f0 s1 = .ok f) := by
  constructor
  · intro s
    rfl
  · intro s f
    unfold parse
    cases hp : parse_header s with
    | error e =>
      dsimp only
      constructor
      · intro hcontra
        cases hcontra
      · rintro ⟨f0, p, s1, hph, -⟩
        cases hph
    | ok r =>
      obtain ⟨⟨f0, p⟩, s1⟩ := r
      dsimp only
      constructor
      · intro hpc
        exact ⟨f0, p, s1, rfl, hpc⟩
      · rintro ⟨f0x, px, s1x, hph, hpc⟩
        cases hph
        exact hpc

/-- C10: the segment-command tag reader can only fail through the byte
source (EOF): the low-3-bit instruction always lies in 0..=7 and matches a
variant, so the bad-instruction branch is unreachable. -/
theorem claim_C10_theorem (p : ParserState) (s : List Nat) (e : Err)
    (h : segment_command_tag p s = .error e) : e = .eof := by
  unfold segment_command_tag at h
  split at h
  · cases h
    exact read_u8_error s _ (by assumption)
  · rename_i raw s1 hu8
    dsimp only at h
    split at h
    · rename_i e1 hlw
      cases h
      split at hlw
      · split at hlw
        · cases hlw
          exact read_unit_error _ _ _ (by assumption)
        · cases hlw
      · cases hlw
    · have h8 : raw &&& 0b00000111 < 8 := by
        have := Nat.and_lt_two_pow raw (show (0b00000111 : Nat) < 2 ^ 3 by norm_num)
        simpa using this
      split at h
      · rename_i e1 hinstr
        cases h
        split at hinstr
        · cases hinstr
        · cases hinstr
        · cases hinstr
        · cases hinstr
        · cases hinstr
        · cases hinstr
        · cases hinstr
        · cases hinstr
        · cases hinstr
          exfalso
          rename_i hn0 hn1 hn2 hn3 hn4 hn5 hn6 hn7
          have hcases : raw &&& 7 = 0 ∨ raw &&& 7 = 1 ∨ raw &&& 7 = 2 ∨ raw &&& 7 = 3 ∨
              raw &&& 7 = 4 ∨ raw &&& 7 = 5 ∨ raw &&& 7 = 6 ∨ raw &&& 7 = 7 := by omega
          rcases hcases with h' | h' | h' | h' | h' | h' | h' | h'
          · exact hn0 h'
          · exact hn1 h'
          · exact hn2 h'
          · exact hn3 h'
          · exact hn4 h'
          · exact hn5 h'
          · exact hn6 h'
          · exact hn7 h'
      · cases h

/-- C8: OutlineFillPolygon (tag 8) and OutlineFillRectangles (tag 9) read
u6 + 1 items, where u6 is the low six bits of the segment-count byte, while
OutlineFillPath (tag 10) reads a path of exactly u6 segments (no further +1
on the path length prefix). -/
theorem claim_C8_theorem :
    (∀ (p : ParserState) (primary : StyleVariant) (s : List Nat) (u6 u2v : Nat)
        (s1 : List Nat) (c : Command) (s' : List Nat),
        u6_u2 s = .ok ((u6, u2v), s1) →
        outline_fill_polygon p primary s = .ok (c, s') →
        ∃ fs poly ol, c = .FillPolygon fs poly (some ol) ∧ poly.length = u6 + 1) ∧
    (∀ (p : ParserState) (primary : StyleVariant) (s : List Nat) (u6 u2v : Nat)
        (s1 : List Nat) (c : Command) (s' : List Nat),
        u6_u2 s = .ok ((u6, u2v), s1) →
        outline_fill_rectangles p primary s = .ok (c, s') →
        ∃ fs recs ol, c = .FillRectangles fs recs (some ol) ∧ recs.length = u6 + 1) ∧
    (∀ (p : ParserState) (primary : StyleVariant) (s : List Nat) (u6 u2v : Nat)
        (s1 : List Nat) (c : Command) (s' : List Nat),
        u6_u2 s = .ok ((u6, u2v), s1) →
        outline_fill_path p primary s = .ok (c, s') →
        ∃ fs path ol, c = .FillPath fs path (some ol) ∧ path.length = u6) := by
  refine ⟨?_, ?_, ?_⟩
  · intro p primary s u6 u2v s1 c s' h1 h2
    unfold outline_fill_polygon at h2
    split at h2
    · cases h2
    · rename_i ofl s5 hcmd
      cases h2
      exact ⟨ofl.fill_style, ofl.items, ofl.outline, rfl,
             outline_fill_cmd_items_length p primary point s u6 u2v s1 ofl _ h1 (by assumption)⟩
  · intro p primary s u6 u2v s1 c s' h1 h2
    unfold outline_fill_rectangles at h2
    split at h2
    · cases h2
    · rename_i ofl s5 hcmd
      cases h2
      exact ⟨ofl.fill_style, ofl.items, ofl.outline, rfl,
             outline_fill_cmd_items_length p primary rectangle s u6 u2v s1 ofl _ h1 (by assumption)⟩
  · intro p primary s u6 u2v s1 c s' h1 h2
    unfold outline_fill_path at h2
    rw [h1] at h2
    dsimp only at h2
    split at h2
    · cases h2
    · split at h2
      · cases h2
      · split at h2
        · cases h2
        · split at h2
          · cases h2
          · split at h2
            · cases h2
            · rename_i path s5 hpath
              cases h2
              exact ⟨_, path, _, rfl, read_path_length p u6 _ _ _ hpath⟩

/-- C8 witness: with segment-count byte 0x00, the polygon form reads 0+1
points while the path form reads a path of 0 segments. -/
theorem claim_C8_witness :
    (∃ fs poly ol,
        Command.FillPolygon (.FlatColor 0)
            [{ x := ((0 : Nat) : ℚ) / ((2 ^ (0 : Nat) : Nat) : ℚ),
               y := ((0 : Nat) : ℚ) / ((2 ^ (0 : Nat) : Nat) : ℚ) }]
            (some { line_width := ((0 : Nat) : ℚ) / ((2 ^ (0 : Nat) : Nat) : ℚ),
                    line_style := .FlatColor 0 }) =
          Command.FillPolygon fs poly (some ol) ∧ poly.length = 0 + 1) ∧
    (∃ fs path ol,
        Command.FillPath (.FlatColor 0) []
            (some { line_width := ((0 : Nat) : ℚ) / ((2 ^ (0 : Nat) : Nat) : ℚ),
                    line_style := .FlatColor 0 }) =
          Command.FillPath fs path (some ol) ∧ path.length = 0) :=
  ⟨claim_C8_theorem.1 { coordinate_range := .Reduced, color_count := 0,
                        color_encoding := .Rgba8888, scale := 0 }
      .FlatColor [0x00, 0x00, 0x00, 0x00, 0x00, 0x00] 0 0 [0x00, 0x00, 0x00, 0x00, 0x00]
      (Command.FillPolygon (.FlatColor 0)
        [{ x := ((0 : Nat) : ℚ) / ((2 ^ (0 : Nat) : Nat) : ℚ),
           y := ((0 : Nat) : ℚ) / ((2 ^ (0 : Nat) : Nat) : ℚ) }]
        (some { line_width := ((0 : Nat) : ℚ) / ((2 ^ (0 : Nat) : Nat) : ℚ),
                line_style := .FlatColor 0 })) [] (by decide) (by rfl),
   claim_C8_theorem.2.2 { coordinate_range := .Reduced, color_count := 0,
                          color_encoding := .Rgba8888, scale := 0 }
      .FlatColor [0x00, 0x00, 0x00, 0x00] 0 0 [0x00, 0x00, 0x00]
      (Command.FillPath (.FlatColor 0) []
        (some { line_width := ((0 : Nat) : ℚ) / ((2 ^ (0 : Nat) : Nat) : ℚ),
                line_style := .FlatColor 0 })) [] (by decide) (by rfl)⟩

/-- C10 witness: on empty input the tag reader fails, and that failure is
EOF. -/
theorem claim_C10_witness :
    segment_command_tag { coordinate_range := .Reduced, color_count := 0,
                          color_encoding := .Rgb565, scale := 0 } [] = .error .eof ∧
    Err.eof = Err.eof :=
  ⟨by decide,
   claim_C10_theorem { coordinate_range := .Reduced, color_count := 0,
                       color_encoding := .Rgb565, scale := 0 } [] .eof (by decide)⟩

end TinyVG
